import Mathlib

/-!
Verification of the TikTok downloader pipeline in `src/api/app.py`.

The whole repository is the single module `api/app.py`.  We shallowly embed
its pipeline:

* `extract_video_id`  (app.py lines 80-136): URL parsing with a redirect
  step, a primary regex pair, and a fallback digit-run regex.
* `download_v1` / `download_v2` / `download_v3` (lines 138-478): the three
  provider adapters (tmate.cc, musicaldown.com, tiktokio.com).
* `download_video` (lines 51-78): the fallback orchestrator trying the
  methods in the fixed order [v2, v3, v1].

Modelling decisions, all visible in the definitions below:

* Errors: Python exceptions are values of `PyErr`.  The module never
  defines or imports the name `logger`, yet calls `logger.debug` /
  `logger.warning` / `logger.error` throughout; in Python evaluating such a
  call raises `NameError`.  Every definition takes a flag `lg : Bool`:
  `lg = false` is the module exactly as written (each logging call raises
  `NameError "logger"`), `lg = true` is the module with a working `logger`
  (each logging call is a no-op).  All theorems state which flag they use.
* Network and HTML: every HTTP response the third parties could produce is
  an `HttpResp`; its HTML body is abstracted as the functions
  `css` / `xpath` from a selector string to the list of strings that
  selector yields on the document (the `.get()` of parsel is `List.head?`,
  `.getall()` is the whole list).  The environment `Env` fixes one oracle
  per network interaction of the source.
* Effects: computations run in `AdM`, pairing an `Except PyErr` result with
  an append-only trace of the network calls issued, so that claims of the
  form "no network call is performed" and "adapter 2 is never invoked" are
  provable from the trace.
* Regexes are embedded as executable scanners with Python `re.search`
  semantics (leftmost match, greedy quantifiers):
  `@([A-Za-z0-9_.]+)` is `findHandle`, `/(video|photo)/(\d+)` is
  `findContentType`, and `[/=](\d{15,})` is `findAltId`.
* Python truthiness on scraped strings (`if not token:`) is `strTruthy`:
  both a missing match and the empty string are falsy.
-/

/-- A Python exception, as far as this module can raise one:
either a `NameError` for an undefined name, or a fastapi `HTTPException`
with a status code and a detail message. -/
inductive PyErr where
  | nameError (n : String)
  | httpException (status : Nat) (detail : String)
deriving Repr, DecidableEq

/-- `str(e)` for the exceptions above (used when an adapter wraps an
unexpected error into a 500; quotes of the Python rendering are elided). -/
def PyErr.msg : PyErr → String
  | .nameError n => "name " ++ n ++ " is not defined"
  | .httpException st d => toString st ++ ": " ++ d

/-- One network call issued by the module. -/
inductive NetEv where
  | redirectGet (url : String)
  | backendGet (url : String)
  | backendPost (url : String)
deriving Repr, DecidableEq

/-- Backend-handshake calls (everything except the short-link redirect). -/
def NetEv.isBackend : NetEv → Bool
  | .redirectGet _ => false
  | .backendGet _ => true
  | .backendPost _ => true

/-- An HTML document, abstracted as what each CSS / XPath selector yields
on it. -/
structure Html where
  css : String → List String
  xpath : String → List String

/-- An HTTP response: status code, parsed body, JSON body (for tmate.cc:
`.error msg` models a JSON parse failure, `.ok none` a missing or falsy
`data` field, `.ok (some h)` the HTML held by the `data` field), headers
and raw content bytes. -/
structure HttpResp where
  status : Nat
  text : Html
  jsonData : Except String (Option Html)
  headers : String → Option String
  content : List Nat

/-- The value a successful adapter hands to the fastapi `StreamingResponse`:
body bytes, declared media type, and the response headers dict in
insertion order. -/
structure Resp where
  content : List Nat
  media_type : String
  headersList : List (String × String)
deriving Repr, DecidableEq

/-- The environment: one oracle per network interaction of the source.
`redirect` is the redirect-following GET of `extract_video_id` (transport
error message, or final URL).  The per-adapter oracles receive exactly the
data the source sends. -/
structure Env where
  redirect : String → Except String String
  v1_landing : HttpResp
  v1_action : String → String → HttpResp
  v1_media : String → HttpResp
  v2_landing : HttpResp
  v2_download : List (String × String) → HttpResp
  v2_media : String → HttpResp
  v3_landing : HttpResp
  v3_post : String → String → HttpResp
  v3_media : String → HttpResp

/-- The effect monad: a computation takes the trace of network calls made
so far and returns an `Except PyErr` result together with the extended
trace.  The trace survives a raised exception, exactly as network calls
already made survive a Python exception. -/
def AdM (α : Type) : Type := List NetEv → Except PyErr α × List NetEv

/-- Lift a value. -/
def AdM.pure {α : Type} (a : α) : AdM α := fun t => (Except.ok a, t)

/-- Sequencing: an exception short-circuits but keeps the trace. -/
def AdM.bind {α β : Type} (x : AdM α) (f : α → AdM β) : AdM β := fun t =>
  match x t with
  | (Except.ok a, t2) => f a t2
  | (Except.error e, t2) => (Except.error e, t2)

instance : Monad AdM where
  pure := AdM.pure
  bind := AdM.bind

/-- `raise e`. -/
def AdM.throw {α : Type} (e : PyErr) : AdM α := fun t => (Except.error e, t)

/-- `try x except Exception as e: h e` — the handler starts from the trace
the body reached. -/
def AdM.tryCatch {α : Type} (x : AdM α) (h : PyErr → AdM α) : AdM α := fun t =>
  match x t with
  | (Except.ok a, t2) => (Except.ok a, t2)
  | (Except.error e, t2) => h e t2

/-- Record one network call. -/
def netEv (ev : NetEv) : AdM Unit := fun t => (Except.ok (), t ++ [ev])

/-- One `logger.debug` / `logger.warning` / `logger.error` call of the
source.  With `lg = false` (the module as written, `logger` undefined) it
raises `NameError`; with `lg = true` it is a no-op. -/
def logA (lg : Bool) : AdM Unit :=
  if lg then AdM.pure () else AdM.throw (PyErr.nameError "logger")

/-- Python truthiness of a scraped string: `None` and `""` are falsy. -/
def strTruthy : Option String → Option String
  | none => none
  | some s => if s = "" then none else some s

/-- Is `sub` a contiguous sublist of `l`?  (Python `sub in s`.) -/
def occursIn (sub : List Char) : List Char → Bool
  | [] => sub.isEmpty
  | c :: rest => sub.isPrefixOf (c :: rest) || occursIn sub rest

/-- Python `sub in s` on strings. -/
def containsSub (sub s : String) : Bool := occursIn sub.toList s.toList

/-- A character matched by the class `[A-Za-z0-9_.]`. -/
def isHandleChar (c : Char) : Bool := c.isAlphanum || c = '_' || c = '.'

/-- `re.search(r"@([A-Za-z0-9_.]+)", url)`: leftmost `@` followed by a
non-empty greedy run of handle characters; returns group 1 (the run). -/
def findHandle : List Char → Option (List Char)
  | [] => none
  | c :: rest =>
    if c = '@' then
      let run := rest.takeWhile isHandleChar
      if run = [] then findHandle rest else some run
    else findHandle rest

/-- The literal `/video/`. -/
def vidTag : List Char := ['/', 'v', 'i', 'd', 'e', 'o', '/']

/-- The literal `/photo/`. -/
def phoTag : List Char := ['/', 'p', 'h', 'o', 't', 'o', '/']

/-- Match `<tag><digits>+` (greedy) at the head of `l`; returns the digit
run. -/
def digitsAfter (tag : List Char) (l : List Char) : Option (List Char) :=
  if tag.isPrefixOf l then
    let ds := (l.drop tag.length).takeWhile Char.isDigit
    if ds = [] then none else some ds
  else none

/-- One attempt of `/(video|photo)/(\d+)` at the current position,
alternation tried left to right; returns (group 1, group 2). -/
def tryContent (l : List Char) : Option (String × List Char) :=
  match digitsAfter vidTag l with
  | some ds => some ("video", ds)
  | none =>
    match digitsAfter phoTag l with
    | some ds => some ("photo", ds)
    | none => none

/-- `re.search(r"/(video|photo)/(\d+)", url)`: leftmost match. -/
def findContentType : List Char → Option (String × List Char)
  | [] => none
  | c :: rest =>
    match tryContent (c :: rest) with
    | some r => some r
    | none => findContentType rest

/-- `re.search(r"[/=](\d{15,})", url)`: leftmost `/` or `=` followed by a
greedy digit run of length at least 15; returns group 1. -/
def findAltId : List Char → Option (List Char)
  | [] => none
  | c :: rest =>
    if c = '/' || c = '=' then
      let ds := rest.takeWhile Char.isDigit
      if 15 ≤ ds.length then some ds else findAltId rest
    else findAltId rest

/-- app.py lines 121-136: the code after the alternative-pattern block.
If the username pattern failed, raise 400; else if the content pattern
failed, raise 400; else return `(group 0 of the handle, video id, content
type)`. -/
def extract_fallthrough (lg : Bool) (um : Option (List Char))
    (cm : Option (String × List Char)) : AdM (String × String × String) :=
  match um with
  | none => do
    let _ ← logA lg  -- logger.error "Could not extract username from URL"
    AdM.throw (PyErr.httpException 400 "Could not extract username from URL")
  | some run =>
    match cm with
    | none => do
      let _ ← logA lg  -- logger.error "Could not extract video ID from URL"
      AdM.throw (PyErr.httpException 400 "Could not extract video ID from URL")
    | some (ct, vid) =>
      AdM.pure ("@" ++ String.mk run, String.mk vid, ct)

/-- app.py lines 95-136: the regex part of `extract_video_id`, applied to
the (possibly redirect-resolved) URL. -/
def extract_core (lg : Bool) (url : String) : AdM (String × String × String) :=
  let um := findHandle url.toList
  let cm := findContentType url.toList
  if um.isNone || cm.isNone then do
    let _ ← logA lg  -- logger.warning "Standard pattern failed, trying alternative patterns..."
    match findAltId url.toList with
    | some vid => do
      let username ←
        match um with
        | some run => AdM.pure ("@" ++ String.mk run)
        | none => do
          let _ ← logA lg  -- logger.warning "Could not extract username, using placeholder"
          AdM.pure "@user"
      AdM.pure (username, String.mk vid, "video")
    | none => extract_fallthrough lg um cm
  else extract_fallthrough lg um cm

/-- app.py lines 80-136: `extract_video_id(url)`.  Shortened URLs
(`vm.tiktok.com` / `vt.tiktok.com` hosts) are first resolved by a
redirect-following GET; a transport error there becomes a 400. -/
def extract_video_id (lg : Bool) (env : Env) (url0 : String) :
    AdM (String × String × String) := do
  let url ←
    if containsSub "vm.tiktok.com" url0 || containsSub "vt.tiktok.com" url0 then do
      let _ ← netEv (NetEv.redirectGet url0)
      match env.redirect url0 with
      | Except.ok u => AdM.pure u
      | Except.error msg => do
        let _ ← logA lg  -- logger.error "Error following redirect"
        AdM.throw (PyErr.httpException 400 ("Failed to follow redirect: " ++ msg))
    else AdM.pure url0
  extract_core lg url

/-- app.py lines 151-238: the `try:` body of `download_v1` (tmate.cc).
Each `let _ ← logA lg` is one logging call of the source, in source
order. -/
def v1_try (lg : Bool) (env : Env) (url : String) : AdM Resp := do
  let ref ← extract_video_id lg env url
  let video_id := ref.2.1
  let content_type := ref.2.2
  let _ ←
    (if content_type ≠ "video" then do
      let _ ← logA lg  -- logger.warning "Content type ... is not supported"
      AdM.throw (PyErr.httpException 400 "Only video downloads are supported")
    else AdM.pure () : AdM Unit)
  let _ ← logA lg  -- logger.debug "Making initial request to tmate.cc"
  let _ ← netEv (NetEv.backendGet "https://tmate.cc/")
  let response := env.v1_landing
  let _ ←
    (if response.status ≠ 200 then do
      let _ ← logA lg
      AdM.throw (PyErr.httpException response.status
        ("tmate.cc initial request failed with status " ++ toString response.status))
    else AdM.pure () : AdM Unit)
  let token ←
    (match strTruthy (response.text.css "input[name=\"token\"]::attr(value)").head? with
    | none => do
      let _ ← logA lg  -- logger.error "Could not retrieve token from tmate.cc"
      AdM.throw (PyErr.httpException 500 "Could not retrieve token from tmate.cc")
    | some t => AdM.pure t : AdM String)
  let _ ← logA lg  -- logger.debug "Obtained token"
  let _ ← logA lg  -- logger.debug "Submitting URL to tmate.cc"
  let _ ← netEv (NetEv.backendPost "https://tmate.cc/action")
  let response2 := env.v1_action url token
  let _ ←
    (if response2.status ≠ 200 then do
      let _ ← logA lg
      AdM.throw (PyErr.httpException response2.status
        ("tmate.cc action request failed with status " ++ toString response2.status))
    else AdM.pure () : AdM Unit)
  let response_json ←
    (match response2.jsonData with
    | Except.error msg => do
      let _ ← logA lg
      let _ ← logA lg
      AdM.throw (PyErr.httpException 500 ("Invalid JSON response from tmate.cc: " ++ msg))
    | Except.ok j => AdM.pure j : AdM (Option Html))
  let response_data ←
    (match response_json with
    | none => do
      let _ ← logA lg
      let _ ← logA lg
      AdM.throw (PyErr.httpException 500 "Invalid response from tmate.cc (no data field)")
    | some d => AdM.pure d : AdM Html)
  let download_links := response_data.css ".downtmate-right.is-desktop-only.right a::attr(href)"
  let download_link ←
    (match download_links with
    | [] => do
      let _ ← logA lg
      let _ ← logA lg
      AdM.throw (PyErr.httpException 500 "Could not find download link")
    | l :: _ => AdM.pure l : AdM String)
  let _ ← logA lg  -- logger.debug "Found download link"
  let _ ← logA lg  -- logger.debug "Downloading video content"
  let _ ← netEv (NetEv.backendGet download_link)
  let video_response := env.v1_media download_link
  let _ ←
    (if video_response.status ≠ 200 then do
      let _ ← logA lg
      AdM.throw (PyErr.httpException video_response.status
        ("Failed to download video from tmate.cc with status " ++ toString video_response.status))
    else AdM.pure () : AdM Unit)
  let ctHeader := (video_response.headers "Content-Type").getD ""
  let _ ←
    (if ¬ (containsSub "video" ctHeader = true) ∧ ¬ (containsSub "octet-stream" ctHeader = true) then do
      let _ ← logA lg  -- logger.warning "Unexpected content type in response"
      logA lg          -- logger.debug "Response headers"
    else AdM.pure () : AdM Unit)
  let _ ← logA lg  -- logger.debug "Video content length"
  AdM.pure
    { content := video_response.content
      media_type := "video/mp4"
      headersList :=
        [("Content-Disposition", "attachment; filename=\"tiktok_" ++ video_id ++ ".mp4\""),
         ("Content-Length", toString response2.content.length),
         ("Accept-Ranges", "bytes")] }

/-- app.py lines 240-246: the `except Exception as e:` handler of
`download_v1`: re-raise an `HTTPException` after a log call, wrap anything
else into a 500 after two log calls. -/
def v1_except (lg : Bool) (e : PyErr) : AdM Resp :=
  match e with
  | PyErr.httpException st d => do
    let _ ← logA lg  -- logger.error "HTTP exception in v1 method"
    AdM.throw (PyErr.httpException st d)
  | e2 => do
    let _ ← logA lg  -- logger.error "Error in v1 method"
    let _ ← logA lg  -- logger.debug traceback
    AdM.throw (PyErr.httpException 500 ("Error downloading video (v1): " ++ e2.msg))

/-- app.py lines 138-246: `download_v1(url)` (tmate.cc). -/
def download_v1 (lg : Bool) (env : Env) (url : String) : AdM Resp :=
  AdM.tryCatch (v1_try lg env url) (v1_except lg)

/-- app.py lines 263-355: the `try:` body of `download_v2`
(musicaldown.com). -/
def v2_try (lg : Bool) (env : Env) (url : String) : AdM Resp := do
  let ref ← extract_video_id lg env url
  let video_id := ref.2.1
  let content_type := ref.2.2
  let _ ←
    (if content_type ≠ "video" then do
      let _ ← logA lg  -- logger.warning "Content type ... is not supported"
      AdM.throw (PyErr.httpException 400 "Only video downloads are supported")
    else AdM.pure () : AdM Unit)
  let _ ← logA lg  -- logger.debug "Making initial request to musicaldown.com"
  let _ ← netEv (NetEv.backendGet "https://musicaldown.com/en")
  let r := env.v2_landing
  let _ ←
    (if r.status ≠ 200 then do
      let _ ← logA lg
      AdM.throw (PyErr.httpException r.status
        ("musicaldown.com initial request failed with status " ++ toString r.status))
    else AdM.pure () : AdM Unit)
  let token_a := strTruthy (r.text.xpath "//*[@id=\"link_url\"]/@name").head?
  let token_b := strTruthy (r.text.xpath "//*[@id=\"submit-form\"]/div/div[1]/input[2]/@name").head?
  let token_b_value := strTruthy (r.text.xpath "//*[@id=\"submit-form\"]/div/div[1]/input[2]/@value").head?
  let tokens ←
    (match token_a, token_b, token_b_value with
    | some a, some b, some bv => AdM.pure (a, b, bv)
    | _, _, _ => do
      let _ ← logA lg  -- logger.error "Could not retrieve tokens from musicaldown.com"
      let _ ← logA lg  -- logger.debug "HTML content"
      AdM.throw (PyErr.httpException 500 "Could not retrieve tokens from musicaldown.com")
    : AdM (String × String × String))
  let _ ← logA lg  -- logger.debug "Obtained tokens"
  let _ ← logA lg  -- logger.debug "Submitting URL to musicaldown.com"
  let _ ← netEv (NetEv.backendPost "https://musicaldown.com/download")
  let response := env.v2_download [(tokens.1, url), (tokens.2.1, tokens.2.2), ("verify", "1")]
  let _ ←
    (if response.status ≠ 200 then do
      let _ ← logA lg
      AdM.throw (PyErr.httpException response.status
        ("musicaldown.com download request failed with status " ++ toString response.status))
    else AdM.pure () : AdM Unit)
  -- lines 310-322: ordered selector candidates, first truthy match wins
  let download_link ←
    (match strTruthy (response.text.xpath "/html/body/div[2]/div/div[2]/div[2]/a[1]/@href").head? with
    | some l => do
      let _ ← logA lg  -- logger.debug "Found download link using selector"
      AdM.pure (some l)
    | none =>
      match strTruthy (response.text.xpath "//div[contains(@class, \"row\")]//a[contains(text(), \"Download\")]/@href").head? with
      | some l => do
        let _ ← logA lg
        AdM.pure (some l)
      | none =>
        match strTruthy (response.text.xpath "//a[contains(@href, \".mp4\")]/@href").head? with
        | some l => do
          let _ ← logA lg
          AdM.pure (some l)
        | none => AdM.pure none : AdM (Option String))
  let download_link ←
    (match download_link with
    | none => do
      let _ ← logA lg  -- logger.error "Could not find download link in musicaldown.com response"
      let _ ← logA lg  -- logger.debug "Response content"
      AdM.throw (PyErr.httpException 500 "Could not find download link")
    | some l => AdM.pure l : AdM String)
  let _ ← logA lg  -- logger.debug "Downloading video from ..."
  let _ ← netEv (NetEv.backendGet download_link)
  let response3 := env.v2_media download_link
  let _ ←
    (if response3.status ≠ 200 then do
      let _ ← logA lg
      AdM.throw (PyErr.httpException response3.status
        ("Failed to download video from musicaldown.com with status " ++ toString response3.status))
    else AdM.pure () : AdM Unit)
  let ctHeader := (response3.headers "Content-Type").getD ""
  let _ ←
    (if ¬ (containsSub "video" ctHeader = true) ∧ ¬ (containsSub "octet-stream" ctHeader = true) then do
      let _ ← logA lg
      logA lg
    else AdM.pure () : AdM Unit)
  let _ ← logA lg  -- logger.debug "Video content length"
  AdM.pure
    { content := response3.content
      media_type := "video/mp4"
      headersList :=
        [("Content-Disposition", "attachment; filename=\"tiktok_" ++ video_id ++ ".mp4\"")] }

/-- app.py lines 357-363: the exception handler of `download_v2`. -/
def v2_except (lg : Bool) (e : PyErr) : AdM Resp :=
  match e with
  | PyErr.httpException st d => do
    let _ ← logA lg
    AdM.throw (PyErr.httpException st d)
  | e2 => do
    let _ ← logA lg
    let _ ← logA lg
    AdM.throw (PyErr.httpException 500 ("Error downloading video (v2): " ++ e2.msg))

/-- app.py lines 248-363: `download_v2(url)` (musicaldown.com). -/
def download_v2 (lg : Bool) (env : Env) (url : String) : AdM Resp :=
  AdM.tryCatch (v2_try lg env url) (v2_except lg)

/-- app.py lines 383-470: the `try:` body of `download_v3`
(tiktokio.com). -/
def v3_try (lg : Bool) (env : Env) (url : String) : AdM Resp := do
  let ref ← extract_video_id lg env url
  let video_id := ref.2.1
  let content_type := ref.2.2
  let _ ←
    (if content_type ≠ "video" then do
      let _ ← logA lg  -- logger.warning "Content type ... is not supported"
      AdM.throw (PyErr.httpException 400 "Only video downloads are supported")
    else AdM.pure () : AdM Unit)
  let _ ← logA lg  -- logger.debug "Making initial request to tiktokio.com"
  let _ ← netEv (NetEv.backendGet "https://tiktokio.com/")
  let r := env.v3_landing
  let _ ←
    (if r.status ≠ 200 then do
      let _ ← logA lg
      AdM.throw (PyErr.httpException r.status
        ("tiktokio.com initial request failed with status " ++ toString r.status))
    else AdM.pure () : AdM Unit)
  let prefixVal ←
    (match strTruthy (r.text.css "input[name=\"prefix\"]::attr(value)").head? with
    | none => do
      let _ ← logA lg  -- logger.error "Could not retrieve prefix from tiktokio.com"
      let _ ← logA lg  -- logger.debug "HTML content"
      AdM.throw (PyErr.httpException 500 "Could not retrieve prefix from tiktokio.com")
    | some p => AdM.pure p : AdM String)
  let _ ← logA lg  -- logger.debug "Obtained prefix"
  let _ ← logA lg  -- logger.debug "Submitting URL to tiktokio.com API"
  let _ ← netEv (NetEv.backendPost "https://tiktokio.com/api/v1/tk-htmx")
  let response := env.v3_post prefixVal url
  let _ ←
    (if response.status ≠ 200 then do
      let _ ← logA lg
      AdM.throw (PyErr.httpException response.status
        ("tiktokio.com API request failed with status " ++ toString response.status))
    else AdM.pure () : AdM Unit)
  let _ ← logA lg  -- logger.debug "API response content"
  -- lines 429-441: primary selector, then one alternative selector
  let download_link ←
    (match response.text.css "div.tk-down-link a::attr(href)" with
    | [] => do
      let _ ← logA lg  -- logger.error "Could not find download link in tiktokio.com response"
      (match response.text.css "a[href*=\".mp4\"]::attr(href)" with
      | [] => do
        let _ ← logA lg  -- logger.error "Could not find download link with alternative selector"
        let _ ← logA lg  -- logger.debug "Response content"
        AdM.throw (PyErr.httpException 500 "Could not find download link")
      | l :: _ => AdM.pure l)
    | l :: _ => AdM.pure l : AdM String)
  let _ ← logA lg  -- logger.debug "Found download link"
  let _ ← logA lg  -- logger.debug "Downloading video from ..."
  let _ ← netEv (NetEv.backendGet download_link)
  let response3 := env.v3_media download_link
  let _ ←
    (if response3.status ≠ 200 then do
      let _ ← logA lg
      AdM.throw (PyErr.httpException response3.status
        ("Failed to download video from tiktokio.com with status " ++ toString response3.status))
    else AdM.pure () : AdM Unit)
  let ctHeader := (response3.headers "Content-Type").getD ""
  let _ ←
    (if ¬ (containsSub "video" ctHeader = true) ∧ ¬ (containsSub "octet-stream" ctHeader = true) then do
      let _ ← logA lg
      logA lg
    else AdM.pure () : AdM Unit)
  let _ ← logA lg  -- logger.debug "Video content length"
  AdM.pure
    { content := response3.content
      media_type := "video/mp4"
      headersList :=
        [("Content-Disposition", "attachment; filename=\"tiktok_" ++ video_id ++ ".mp4\"")] }

/-- app.py lines 472-478: the exception handler of `download_v3`. -/
def v3_except (lg : Bool) (e : PyErr) : AdM Resp :=
  match e with
  | PyErr.httpException st d => do
    let _ ← logA lg
    AdM.throw (PyErr.httpException st d)
  | e2 => do
    let _ ← logA lg
    let _ ← logA lg
    AdM.throw (PyErr.httpException 500 ("Error downloading video (v3): " ++ e2.msg))

/-- app.py lines 365-478: `download_v3(url)` (tiktokio.com). -/
def download_v3 (lg : Bool) (env : Env) (url : String) : AdM Resp :=
  AdM.tryCatch (v3_try lg env url) (v3_except lg)

/-- app.py lines 62-78: the orchestrator loop over the remaining methods,
carrying `last_error`.  Each iteration is `try: return await method(url)
except Exception as e: logger.warning(...); last_error = e`.  After the
loop: `logger.error(...)`, then re-raise an `HTTPException` `last_error`
as is, otherwise wrap it into a 500 after two more log calls. -/
def tryMethods (lg : Bool) (last_error : Option PyErr) :
    List (AdM Resp) → AdM Resp
  | [] => do
    let _ ← logA lg  -- logger.error "All download methods failed for URL"
    match last_error with
    | some (PyErr.httpException st d) => AdM.throw (PyErr.httpException st d)
    | some e => do
      let _ ← logA lg  -- logger.error error_details
      let _ ← logA lg  -- logger.debug traceback
      AdM.throw (PyErr.httpException 500 ("All download methods failed. Last error: " ++ e.msg))
    | none => do
      let _ ← logA lg
      let _ ← logA lg
      AdM.throw (PyErr.httpException 500 ("All download methods failed. Last error: " ++ "None"))
  | m :: rest =>
    AdM.tryCatch m (fun e => do
      let _ ← logA lg  -- logger.warning "Method ... failed"
      tryMethods lg (some e) rest)

/-- app.py lines 51-78: the `/download` endpoint body after the API-key
check: try `download_v2`, `download_v3`, `download_v1` in that order. -/
def download_video (lg : Bool) (env : Env) (url : String) : AdM Resp :=
  tryMethods lg none
    [download_v2 lg env url, download_v3 lg env url, download_v1 lg env url]

/-! ### Concrete environments and URLs used by witnesses and counterexamples -/

/-- An HTML document on which every selector yields nothing. -/
def emptyHtml : Html := ⟨fun _ => [], fun _ => []⟩

/-- A response carrying only a status code. -/
def mkResp (st : Nat) : HttpResp :=
  ⟨st, emptyHtml, Except.ok none, fun _ => none, []⟩

/-- An environment in which every backend is down and the redirect GET
fails; enough for running `extract_video_id` on non-shortened URLs. -/
def envTriv : Env :=
  { redirect := fun _ => Except.error "no network"
    v1_landing := mkResp 0, v1_action := fun _ _ => mkResp 0, v1_media := fun _ => mkResp 0
    v2_landing := mkResp 0, v2_download := fun _ => mkResp 0, v2_media := fun _ => mkResp 0
    v3_landing := mkResp 0, v3_post := fun _ _ => mkResp 0, v3_media := fun _ => mkResp 0 }

/-- tmate.cc landing page carrying the hidden token field. -/
def v1LandingHappy : HttpResp :=
  { status := 200
    text := { css := fun s => if s = "input[name=\"token\"]::attr(value)" then ["tok1"] else []
              xpath := fun _ => [] }
    jsonData := Except.ok none, headers := fun _ => none, content := [] }

/-- tmate.cc `data` HTML carrying the no-watermark link. -/
def v1DataHappy : Html :=
  { css := fun s =>
      if s = ".downtmate-right.is-desktop-only.right a::attr(href)" then
        ["https://dl.example/v1.mp4"]
      else []
    xpath := fun _ => [] }

/-- tmate.cc `/action` response: 200, JSON with a `data` field. -/
def v1ActionHappy : HttpResp :=
  { status := 200, text := emptyHtml, jsonData := Except.ok (some v1DataHappy)
    headers := fun _ => none, content := [1, 2] }

/-- A successful media download carrying the given bytes. -/
def mediaHappy (bytes : List Nat) : HttpResp :=
  { status := 200, text := emptyHtml, jsonData := Except.ok none
    headers := fun s => if s = "Content-Type" then some "video/mp4" else none
    content := bytes }

/-- musicaldown.com landing page carrying the three token fields. -/
def v2LandingHappy : HttpResp :=
  { status := 200
    text := { css := fun _ => []
              xpath := fun s =>
                if s = "//*[@id=\"link_url\"]/@name" then ["url_key"]
                else if s = "//*[@id=\"submit-form\"]/div/div[1]/input[2]/@name" then ["tk"]
                else if s = "//*[@id=\"submit-form\"]/div/div[1]/input[2]/@value" then ["tv"]
                else [] }
    jsonData := Except.ok none, headers := fun _ => none, content := [] }

/-- musicaldown.com `/download` response whose first selector candidate
yields a link. -/
def v2DownloadHappy : HttpResp :=
  { status := 200
    text := { css := fun _ => []
              xpath := fun s =>
                if s = "/html/body/div[2]/div/div[2]/div[2]/a[1]/@href" then
                  ["https://dl.example/v2.mp4"]
                else [] }
    jsonData := Except.ok none, headers := fun _ => none, content := [] }

/-- tiktokio.com landing page carrying the hidden prefix field. -/
def v3LandingHappy : HttpResp :=
  { status := 200
    text := { css := fun s => if s = "input[name=\"prefix\"]::attr(value)" then ["pfx"] else []
              xpath := fun _ => [] }
    jsonData := Except.ok none, headers := fun _ => none, content := [] }

/-- tiktokio.com htmx response whose primary selector yields a link. -/
def v3PostHappy : HttpResp :=
  { status := 200
    text := { css := fun s =>
                if s = "div.tk-down-link a::attr(href)" then ["https://dl.example/v3.mp4"]
                else []
              xpath := fun _ => [] }
    jsonData := Except.ok none, headers := fun _ => none, content := [] }

/-- An environment in which all three backends behave and serve a video. -/
def envHappy : Env :=
  { redirect := fun _ => Except.error "no network"
    v1_landing := v1LandingHappy
    v1_action := fun _ _ => v1ActionHappy
    v1_media := fun _ => mediaHappy [9, 9, 9]
    v2_landing := v2LandingHappy
    v2_download := fun _ => v2DownloadHappy
    v2_media := fun _ => mediaHappy [8, 8]
    v3_landing := v3LandingHappy
    v3_post := fun _ _ => v3PostHappy
    v3_media := fun _ => mediaHappy [7, 7] }

/-- All three landing pages answer with distinct error statuses, so every
adapter fails at its initial fetch. -/
def envAllFail : Env :=
  { envHappy with
      v2_landing := mkResp 500, v3_landing := mkResp 502, v1_landing := mkResp 503 }

/-- A tmate.cc `data` HTML: the one selector the source queries yields
`main`, and EVERY other css or xpath selector yields `other`. -/
def v1LinksHtml (main other : List String) : Html :=
  { css := fun s =>
      if s = ".downtmate-right.is-desktop-only.right a::attr(href)" then main else other
    xpath := fun _ => other }

/-- `envHappy` with the tmate.cc `data` HTML replaced by
`v1LinksHtml main other`. -/
def envV1Links (main other : List String) : Env :=
  { envHappy with
      v1_action := fun _ _ =>
        { status := 200, text := emptyHtml
          jsonData := Except.ok (some (v1LinksHtml main other))
          headers := fun _ => none, content := [1, 2] } }

/-- A musicaldown.com `/download` HTML whose three candidate selectors
yield `r1`, `r2`, `r3` respectively. -/
def v2LinksHtml (r1 r2 r3 : List String) : Html :=
  { css := fun _ => []
    xpath := fun s =>
      if s = "/html/body/div[2]/div/div[2]/div[2]/a[1]/@href" then r1
      else if s = "//div[contains(@class, \"row\")]//a[contains(text(), \"Download\")]/@href" then r2
      else if s = "//a[contains(@href, \".mp4\")]/@href" then r3
      else [] }

/-- `envHappy` with the musicaldown.com `/download` HTML replaced by
`v2LinksHtml r1 r2 r3`. -/
def envV2Links (r1 r2 r3 : List String) : Env :=
  { envHappy with
      v2_download := fun _ =>
        { status := 200, text := v2LinksHtml r1 r2 r3
          jsonData := Except.ok none, headers := fun _ => none, content := [] } }

/-- A tiktokio.com htmx HTML whose two candidate selectors yield `r1` and
`r2` respectively. -/
def v3LinksHtml (r1 r2 : List String) : Html :=
  { css := fun s =>
      if s = "div.tk-down-link a::attr(href)" then r1
      else if s = "a[href*=\".mp4\"]::attr(href)" then r2
      else []
    xpath := fun _ => [] }

/-- `envHappy` with the tiktokio.com htmx HTML replaced by
`v3LinksHtml r1 r2`. -/
def envV3Links (r1 r2 : List String) : Env :=
  { envHappy with
      v3_post := fun _ _ =>
        { status := 200, text := v3LinksHtml r1 r2
          jsonData := Except.ok none, headers := fun _ => none, content := [] } }

/-- Modelled from the spec wording of claim C3: the URL "contains a digit
run of length ≥ 15" (anywhere, with no constraint on the character before
the run).  Used only to state the claim, never by the embedded code. -/
def hasDigitRun15 : List Char → Bool
  | [] => false
  | c :: rest => (15 ≤ ((c :: rest).takeWhile Char.isDigit).length) || hasDigitRun15 rest

/-- A canonical standard-pattern URL. -/
def urlStandard : String := "https://www.tiktok.com/@someuser/video/7123456789012345678"

/-- A standard-pattern photo URL. -/
def urlPhoto : String := "https://www.tiktok.com/@someuser/photo/7123456789012345678"

/-- A video URL with a 19-digit id but no `@handle`. -/
def urlVideoNoHandle : String := "https://www.tiktok.com/video/7123456789012345678"

/-- A photo URL with a 19-digit id but no `@handle`. -/
def urlPhotoNoHandle : String := "https://www.tiktok.com/photo/7123456789012345678"

/-- No handle, no `/video/`/`/photo/` segment, and an 18-digit run that is
preceded by `q` — so by neither `/` nor `=`. -/
def urlDigitsNotDelimited : String := "https://example.com/a?vid=q712345678901234567"

/-- A video URL with a 3-digit id and no `@handle`. -/
def urlShortId : String := "https://www.tiktok.com/video/123"


/-- No handle, no content segment; an 18-digit run preceded by `=`. -/
def urlQueryId : String := "https://ex.com?id=712345678901234567"

/-- `envHappy` with the musicaldown.com landing page down. -/
def envV2Down : Env := { envHappy with v2_landing := mkResp 500 }

/-- `envHappy` with the musicaldown.com and tiktokio.com landing pages down. -/
def envV23Down : Env := { envHappy with v2_landing := mkResp 500, v3_landing := mkResp 502 }

/-! ### Execution lemmas -/

theorem AdM.run_bind {α β : Type} (x : AdM α) (f : α → AdM β) (t : List NetEv) :
    (x >>= f) t = match x t with
      | (Except.ok a, t2) => f a t2
      | (Except.error e, t2) => (Except.error e, t2) := rfl

theorem AdM.run_bind_ok {α β : Type} {x : AdM α} {t t2 : List NetEv} {a : α}
    (f : α → AdM β) (hx : x t = (Except.ok a, t2)) : (x >>= f) t = f a t2 := by
  rw [AdM.run_bind, hx]

theorem AdM.run_bind_err {α β : Type} {x : AdM α} {t t2 : List NetEv} {e : PyErr}
    (f : α → AdM β) (hx : x t = (Except.error e, t2)) :
    (x >>= f) t = (Except.error e, t2) := by
  rw [AdM.run_bind, hx]

theorem logA_false_hd {β : Type} (k : Unit → AdM β) (t : List NetEv) :
    (logA false >>= k) t = (Except.error (PyErr.nameError "logger"), t) := rfl

/-- Any continuation that starts with the photo check and then a log call
fails when `logger` is undefined. -/
theorem after_extract_false (env : Env) (url : String) (t : List NetEv)
    (k : String × String × String → AdM Resp)
    (hk : ∀ a t2, ∃ e t3, k a t2 = (Except.error e, t3)) :
    ∃ e t2, (extract_video_id false env url >>= k) t = (Except.error e, t2) := by
  cases hx : extract_video_id false env url t with
  | mk res t2 =>
    cases res with
    | error e => exact ⟨e, t2, AdM.run_bind_err k hx⟩
    | ok a =>
      obtain ⟨e, t3, hk2⟩ := hk a t2
      exact ⟨e, t3, by rw [AdM.run_bind_ok k hx]; exact hk2⟩

theorem v1_try_false (env : Env) (url : String) (t : List NetEv) :
    ∃ e t2, v1_try false env url t = (Except.error e, t2) := by
  unfold v1_try
  apply after_extract_false
  intro a t2
  by_cases hct : a.2.2 = "video"
  · refine ⟨PyErr.nameError "logger", t2, ?_⟩
    rw [AdM.run_bind]
    rw [if_neg (by simp [hct])]
    rfl
  · refine ⟨PyErr.nameError "logger", t2, ?_⟩
    rw [AdM.run_bind]
    rw [if_pos (by simp [hct])]
    rfl

theorem v2_try_false (env : Env) (url : String) (t : List NetEv) :
    ∃ e t2, v2_try false env url t = (Except.error e, t2) := by
  unfold v2_try
  apply after_extract_false
  intro a t2
  by_cases hct : a.2.2 = "video"
  · exact ⟨PyErr.nameError "logger", t2, by rw [AdM.run_bind, if_neg (by simp [hct])]; rfl⟩
  · exact ⟨PyErr.nameError "logger", t2, by rw [AdM.run_bind, if_pos (by simp [hct])]; rfl⟩

theorem v3_try_false (env : Env) (url : String) (t : List NetEv) :
    ∃ e t2, v3_try false env url t = (Except.error e, t2) := by
  unfold v3_try
  apply after_extract_false
  intro a t2
  by_cases hct : a.2.2 = "video"
  · exact ⟨PyErr.nameError "logger", t2, by rw [AdM.run_bind, if_neg (by simp [hct])]; rfl⟩
  · exact ⟨PyErr.nameError "logger", t2, by rw [AdM.run_bind, if_pos (by simp [hct])]; rfl⟩

theorem v1_except_false (e : PyErr) (t : List NetEv) :
    v1_except false e t = (Except.error (PyErr.nameError "logger"), t) := by
  cases e <;> rfl

theorem v2_except_false (e : PyErr) (t : List NetEv) :
    v2_except false e t = (Except.error (PyErr.nameError "logger"), t) := by
  cases e <;> rfl

theorem v3_except_false (e : PyErr) (t : List NetEv) :
    v3_except false e t = (Except.error (PyErr.nameError "logger"), t) := by
  cases e <;> rfl

theorem AdM.run_tryCatch {α : Type} (x : AdM α) (h : PyErr → AdM α) (t : List NetEv) :
    AdM.tryCatch x h t = match x t with
      | (Except.ok a, t2) => (Except.ok a, t2)
      | (Except.error e, t2) => h e t2 := rfl

theorem download_v1_false (env : Env) (url : String) (t : List NetEv) :
    ∃ t2, download_v1 false env url t = (Except.error (PyErr.nameError "logger"), t2) := by
  obtain ⟨e, t2, hb⟩ := v1_try_false env url t
  exact ⟨t2, by rw [download_v1, AdM.run_tryCatch, hb]; exact v1_except_false e t2⟩

theorem download_v2_false (env : Env) (url : String) (t : List NetEv) :
    ∃ t2, download_v2 false env url t = (Except.error (PyErr.nameError "logger"), t2) := by
  obtain ⟨e, t2, hb⟩ := v2_try_false env url t
  exact ⟨t2, by rw [download_v2, AdM.run_tryCatch, hb]; exact v2_except_false e t2⟩

theorem download_v3_false (env : Env) (url : String) (t : List NetEv) :
    ∃ t2, download_v3 false env url t = (Except.error (PyErr.nameError "logger"), t2) := by
  obtain ⟨e, t2, hb⟩ := v3_try_false env url t
  exact ⟨t2, by rw [download_v3, AdM.run_tryCatch, hb]; exact v3_except_false e t2⟩

/-- With `logger` undefined, the orchestrator aborts inside the handler of
the very first method: the loop never reaches the second method. -/
theorem tryMethods_false_first (m : AdM Resp) (rest : List (AdM Resp))
    (le : Option PyErr) (t t2 : List NetEv) (e : PyErr)
    (hm : m t = (Except.error e, t2)) :
    tryMethods false le (m :: rest) t = (Except.error (PyErr.nameError "logger"), t2) := by
  rw [tryMethods, AdM.run_tryCatch, hm]
  rfl

theorem download_video_false (env : Env) (url : String) (t : List NetEv) :
    ∃ t2, download_video false env url t = (Except.error (PyErr.nameError "logger"), t2) := by
  obtain ⟨t2, h2⟩ := download_v2_false env url t
  exact ⟨t2, by rw [download_video, tryMethods_false_first _ _ _ _ _ _ h2]⟩

theorem v1_except_err (lg : Bool) (e : PyErr) (t : List NetEv) :
    ∃ e2, v1_except lg e t = (Except.error e2, t) := by
  cases lg <;> cases e <;> exact ⟨_, rfl⟩

theorem v1_ok_shape (lg : Bool) (env : Env) (url : String) (t : List NetEv)
    (r : Resp) (t3 : List NetEv)
    (h : download_v1 lg env url t = (Except.ok r, t3)) :
    ∃ u vid t2, extract_video_id lg env url t = (Except.ok (u, vid, "video"), t2) ∧
      r.media_type = "video/mp4" ∧
      r.headersList.head? = some ("Content-Disposition",
        "attachment; filename=\"tiktok_" ++ vid ++ ".mp4\"") := by
  cases lg with
  | false =>
    obtain ⟨t2, h2⟩ := download_v1_false env url t
    rw [h2] at h
    simp at h
  | true =>
    rw [download_v1, AdM.run_tryCatch] at h
    split at h
    case h_2 e t2 heq =>
      obtain ⟨e2, h3⟩ := v1_except_err true e t2
      rw [h3] at h
      simp at h
    case h_1 a t2 heq =>
      -- the body succeeded; h gives r = a, t3 = t2
      rw [Prod.mk.injEq] at h
      obtain ⟨h1, rfl⟩ := h
      injection h1 with h1
      subst h1
      rw [v1_try] at heq
      rw [AdM.run_bind] at heq
      split at heq
      case h_2 e t4 heq2 => simp at heq
      case h_1 a2 t4 heq2 =>
        simp only [AdM.run_bind, AdM.pure, AdM.throw, logA, netEv, strTruthy,
          ite_true, ite_false, Bool.false_eq_true, if_true, if_false] at heq
        split at heq
        case h_2 => exact absurd heq (by simp)
        case h_1 v0 t5 hv =>
          have hvideo : a2.2.2 = "video" := by
            by_cases hc : a2.2.2 = "video"
            · exact hc
            · rw [if_pos (by simpa using hc)] at hv
              exact absurd hv (by simp [AdM.run_bind, AdM.pure, AdM.throw])
          split at heq
          case h_2 => exact absurd heq (by simp)
          split at heq
          case h_2 => exact absurd heq (by simp)
          split at heq
          case h_2 => exact absurd heq (by simp)
          split at heq
          case h_2 => exact absurd heq (by simp)
          split at heq
          case h_2 => exact absurd heq (by simp)
          split at heq
          case h_2 => exact absurd heq (by simp)
          split at heq
          case h_2 => exact absurd heq (by simp)
          split at heq
          case h_2 => exact absurd heq (by simp)
          rw [Prod.mk.injEq] at heq
          obtain ⟨hok, htr⟩ := heq
          injection hok with hok
          subst hok
          refine ⟨a2.1, a2.2.1, t4, ?_, rfl, rfl⟩
          have h5 : (a2.1, a2.2.1, "video") = a2 := by rw [← hvideo]
          rw [h5]
          exact heq2

theorem v2_except_err (lg : Bool) (e : PyErr) (t : List NetEv) :
    ∃ e2, v2_except lg e t = (Except.error e2, t) := by
  cases lg <;> cases e <;> exact ⟨_, rfl⟩

theorem v2_ok_shape (lg : Bool) (env : Env) (url : String) (t : List NetEv)
    (r : Resp) (t3 : List NetEv)
    (h : download_v2 lg env url t = (Except.ok r, t3)) :
    ∃ u vid t2, extract_video_id lg env url t = (Except.ok (u, vid, "video"), t2) ∧
      r.media_type = "video/mp4" ∧
      r.headersList.head? = some ("Content-Disposition",
        "attachment; filename=\"tiktok_" ++ vid ++ ".mp4\"") := by
  cases lg with
  | false =>
    obtain ⟨t2, h2⟩ := download_v2_false env url t
    rw [h2] at h
    simp at h
  | true =>
    rw [download_v2, AdM.run_tryCatch] at h
    split at h
    case h_2 e t2 heq =>
      obtain ⟨e2, h3⟩ := v2_except_err true e t2
      rw [h3] at h
      simp at h
    case h_1 a t2 heq =>
      rw [Prod.mk.injEq] at h
      obtain ⟨h1, rfl⟩ := h
      injection h1 with h1
      subst h1
      rw [v2_try] at heq
      rw [AdM.run_bind] at heq
      split at heq
      case h_2 e t4 heq2 => simp at heq
      case h_1 a2 t4 heq2 =>
        simp only [AdM.run_bind, AdM.pure, AdM.throw, logA, netEv, strTruthy,
          ite_true, ite_false, Bool.false_eq_true, if_true, if_false] at heq
        split at heq
        case h_2 => exact absurd heq (by simp)
        case h_1 v0 t5 hv =>
          have hvideo : a2.2.2 = "video" := by
            by_cases hc : a2.2.2 = "video"
            · exact hc
            · rw [if_pos (by simpa using hc)] at hv
              exact absurd hv (by simp [AdM.run_bind, AdM.pure, AdM.throw])
          split at heq
          case h_2 => exact absurd heq (by simp)
          split at heq
          case h_2 => exact absurd heq (by simp)
          split at heq
          case h_2 => exact absurd heq (by simp)
          split at heq
          case h_2 => exact absurd heq (by simp)
          split at heq
          case h_2 => exact absurd heq (by simp)
          split at heq
          case h_2 => exact absurd heq (by simp)
          split at heq
          case h_2 => exact absurd heq (by simp)
          rw [Prod.mk.injEq] at heq
          obtain ⟨hok, htr⟩ := heq
          injection hok with hok
          subst hok
          refine ⟨a2.1, a2.2.1, t4, ?_, rfl, rfl⟩
          have h5 : (a2.1, a2.2.1, "video") = a2 := by rw [← hvideo]
          rw [h5]
          exact heq2
theorem v3_except_err (lg : Bool) (e : PyErr) (t : List NetEv) :
    ∃ e2, v3_except lg e t = (Except.error e2, t) := by
  cases lg <;> cases e <;> exact ⟨_, rfl⟩

theorem v3_ok_shape (lg : Bool) (env : Env) (url : String) (t : List NetEv)
    (r : Resp) (t3 : List NetEv)
    (h : download_v3 lg env url t = (Except.ok r, t3)) :
    ∃ u vid t2, extract_video_id lg env url t = (Except.ok (u, vid, "video"), t2) ∧
      r.media_type = "video/mp4" ∧
      r.headersList.head? = some ("Content-Disposition",
        "attachment; filename=\"tiktok_" ++ vid ++ ".mp4\"") := by
  cases lg with
  | false =>
    obtain ⟨t2, h2⟩ := download_v3_false env url t
    rw [h2] at h
    simp at h
  | true =>
    rw [download_v3, AdM.run_tryCatch] at h
    split at h
    case h_2 e t2 heq =>
      obtain ⟨e2, h3⟩ := v3_except_err true e t2
      rw [h3] at h
      simp at h
    case h_1 a t2 heq =>
      rw [Prod.mk.injEq] at h
      obtain ⟨h1, rfl⟩ := h
      injection h1 with h1
      subst h1
      rw [v3_try] at heq
      rw [AdM.run_bind] at heq
      split at heq
      case h_2 e t4 heq2 => simp at heq
      case h_1 a2 t4 heq2 =>
        simp only [AdM.run_bind, AdM.pure, AdM.throw, logA, netEv, strTruthy,
          ite_true, ite_false, Bool.false_eq_true, if_true, if_false] at heq
        split at heq
        case h_2 => exact absurd heq (by simp)
        case h_1 v0 t5 hv =>
          have hvideo : a2.2.2 = "video" := by
            by_cases hc : a2.2.2 = "video"
            · exact hc
            · rw [if_pos (by simpa using hc)] at hv
              exact absurd hv (by simp [AdM.run_bind, AdM.pure, AdM.throw])
          split at heq
          case h_2 => exact absurd heq (by simp)
          split at heq
          case h_2 => exact absurd heq (by simp)
          split at heq
          case h_2 => exact absurd heq (by simp)
          split at heq
          case h_2 => exact absurd heq (by simp)
          split at heq
          case h_2 => exact absurd heq (by simp)
          split at heq
          case h_2 => exact absurd heq (by simp)
          rw [Prod.mk.injEq] at heq
          obtain ⟨hok, htr⟩ := heq
          injection hok with hok
          subst hok
          refine ⟨a2.1, a2.2.1, t4, ?_, rfl, rfl⟩
          have h5 : (a2.1, a2.2.1, "video") = a2 := by rw [← hvideo]
          rw [h5]
          exact heq2
theorem takeWhile_all_head (p : Char → Bool) (l r : List Char)
    (hl : ∀ c ∈ l, p c = true) (hr : ∀ c, r.head? = some c → p c = false) :
    (l ++ r).takeWhile p = l := by
  induction l with
  | nil =>
    cases r with
    | nil => rfl
    | cons c cs =>
      simp only [List.nil_append, List.takeWhile_cons, hr c rfl]
      simp
  | cons c cs ih =>
    simp only [List.cons_append, List.takeWhile_cons, hl c (by simp)]
    simp only [if_true]
    rw [ih (fun x hx => hl x (by simp [hx]))]

theorem findHandle_append (pre l : List Char) (hp : '@' ∉ pre) :
    findHandle (pre ++ l) = findHandle l := by
  induction pre with
  | nil => rfl
  | cons c cs ih =>
    rw [List.cons_append, findHandle]
    rw [if_neg (by simp at hp; exact fun h => hp.1 h.symm)]
    exact ih (by simp at hp; exact hp.2)

theorem findHandle_at (h rest : List Char) (hne : h ≠ [])
    (hall : ∀ c ∈ h, isHandleChar c = true)
    (hr : ∀ c, rest.head? = some c → isHandleChar c = false) :
    findHandle ('@' :: (h ++ rest)) = some h := by
  rw [findHandle, if_pos rfl]
  simp only [takeWhile_all_head isHandleChar h rest hall hr]
  rw [if_neg hne]

theorem prefixOf_bound (tag s : List Char) (c : Char) (r : List Char)
    (hc : c ∉ tag) (hp : tag.isPrefixOf (s ++ c :: r) = true) :
    tag.isPrefixOf s = true ∧ tag.length ≤ s.length := by
  rw [List.isPrefixOf_iff_prefix] at hp
  by_cases hlen : tag.length ≤ s.length
  · refine ⟨?_, hlen⟩
    rw [List.isPrefixOf_iff_prefix]
    exact List.prefix_of_prefix_length_le hp (List.prefix_append s (c :: r)) hlen
  · exfalso
    have hlt : s.length < tag.length := Nat.lt_of_not_le hlen
    obtain ⟨tl, htl⟩ := hp
    have h1 : (s ++ c :: r)[s.length]? = some c := by
      rw [List.getElem?_append_right (Nat.le_refl _)]
      simp
    rw [← htl, List.getElem?_append_left hlt] at h1
    exact hc (List.getElem?_mem h1)

theorem digitsAfter_append_cons (tag s : List Char) (c : Char) (r : List Char)
    (hc : c ∉ tag) (hcd : c.isDigit = false)
    (hs : digitsAfter tag s = none) :
    digitsAfter tag (s ++ c :: r) = none := by
  rw [digitsAfter]
  by_cases hp : tag.isPrefixOf (s ++ c :: r) = true
  · obtain ⟨hps, hlen⟩ := prefixOf_bound tag s c r hc hp
    rw [digitsAfter, if_pos hps] at hs
    have hds : (s.drop tag.length).takeWhile Char.isDigit = [] := by
      by_contra hne
      rw [if_neg hne] at hs
      exact Option.noConfusion hs
    rw [if_pos hp, List.drop_append_of_le_length hlen]
    have : ((s.drop tag.length) ++ c :: r).takeWhile Char.isDigit = [] := by
      cases hd : s.drop tag.length with
      | nil => simp [List.takeWhile_cons, hcd]
      | cons x xs =>
        rw [hd] at hds
        rw [List.takeWhile_cons] at hds
        by_cases hx : Char.isDigit x = true
        · rw [if_pos hx] at hds
          exact absurd hds (by simp)
        · simp only [List.cons_append, List.takeWhile_cons]
          rw [if_neg hx]
    rw [this]
    simp
  · rw [if_neg hp]

theorem tryContent_append_cons (s : List Char) (c : Char) (r : List Char)
    (hcv : c ∉ vidTag) (hcp : c ∉ phoTag) (hcd : c.isDigit = false)
    (hs : tryContent s = none) :
    tryContent (s ++ c :: r) = none := by
  rw [tryContent] at hs ⊢
  cases hv : digitsAfter vidTag s with
  | some ds => rw [hv] at hs; exact Option.noConfusion hs
  | none =>
    rw [hv] at hs
    cases hp : digitsAfter phoTag s with
    | some ds => rw [hp] at hs; exact Option.noConfusion hs
    | none =>
      rw [digitsAfter_append_cons vidTag s c r hcv hcd hv]
      rw [digitsAfter_append_cons phoTag s c r hcp hcd hp]

theorem findContentType_append_cons (pre : List Char) (c : Char) (r : List Char)
    (hpre : findContentType pre = none)
    (hcv : c ∉ vidTag) (hcp : c ∉ phoTag) (hcd : c.isDigit = false) :
    findContentType (pre ++ c :: r) = findContentType (c :: r) := by
  induction pre with
  | nil => rfl
  | cons x xs ih =>
    rw [findContentType] at hpre
    cases ht : tryContent (x :: xs) with
    | some v => rw [ht] at hpre; exact Option.noConfusion hpre
    | none =>
      rw [ht] at hpre
      rw [List.cons_append, findContentType]
      have h2 : tryContent (x :: (xs ++ c :: r)) = none := by
        have := tryContent_append_cons (x :: xs) c r hcv hcp hcd ht
        rw [List.cons_append] at this
        exact this
      rw [h2]
      exact ih hpre

theorem headNe_digitsAfter (tag : List Char) (x : Char) (l : List Char)
    (htag : tag.head? = some '/') (hx : x ≠ '/') :
    digitsAfter tag (x :: l) = none := by
  rw [digitsAfter, if_neg ?_]
  intro hp
  obtain ⟨tl, htl⟩ := List.isPrefixOf_iff_prefix.mp hp
  have h2 : tag.head? = some x := by
    cases tag with
    | nil => simp at htag
    | cons a as =>
      have := congrArg List.head? htl
      simpa using this
  rw [htag] at h2
  exact hx (Option.some.injEq .. ▸ h2).symm

theorem findContentType_skip (l rest : List Char) (hl : ∀ c ∈ l, c ≠ '/') :
    findContentType (l ++ rest) = findContentType rest := by
  induction l with
  | nil => rfl
  | cons x xs ih =>
    rw [List.cons_append, findContentType]
    have h2 : tryContent (x :: (xs ++ rest)) = none := by
      rw [tryContent]
      rw [headNe_digitsAfter vidTag x _ rfl (hl x (by simp))]
      rw [headNe_digitsAfter phoTag x _ rfl (hl x (by simp))]
    rw [h2]
    exact ih (fun c hc => hl c (by simp [hc]))

theorem findContentType_at_vid (d suf : List Char)
    (hd : ∀ c ∈ d, Char.isDigit c = true) (hne : d ≠ [])
    (hsuf : ∀ c, suf.head? = some c → Char.isDigit c = false) :
    findContentType (vidTag ++ (d ++ suf)) = some ("video", d) := by
  have hexp : vidTag ++ (d ++ suf) = '/' :: (['v', 'i', 'd', 'e', 'o', '/'] ++ (d ++ suf)) := rfl
  rw [hexp, findContentType, ← hexp]
  have h1 : tryContent (vidTag ++ (d ++ suf)) = some ("video", d) := by
    rw [tryContent, digitsAfter]
    rw [if_pos (List.isPrefixOf_iff_prefix.mpr (List.prefix_append vidTag (d ++ suf)))]
    rw [List.drop_left]
    rw [takeWhile_all_head Char.isDigit d suf hd hsuf]
    rw [if_neg hne]
  rw [h1]

theorem findAltId_append (a rest : List Char) (ha : findAltId a = none)
    (hr : ∀ c, rest.head? = some c → Char.isDigit c = false) :
    findAltId (a ++ rest) = findAltId rest := by
  induction a with
  | nil => rfl
  | cons c cs ih =>
    rw [findAltId] at ha
    rw [List.cons_append, findAltId]
    by_cases hc : (c = '/' || c = '=') = true
    · rw [if_pos hc] at ha ⊢
      have hrt : rest.takeWhile Char.isDigit = [] := by
        cases rest with
        | nil => rfl
        | cons x xs => simp [List.takeWhile_cons, hr x rfl]
      have hlen : ¬ 15 ≤ (cs.takeWhile Char.isDigit).length := by
        by_contra h15
        rw [if_pos h15] at ha
        exact Option.noConfusion ha
      rw [if_neg hlen] at ha
      have hfull : ((cs ++ rest).takeWhile Char.isDigit).length
          = (cs.takeWhile Char.isDigit).length := by
        rw [List.takeWhile_append]
        by_cases hall : (cs.takeWhile Char.isDigit).length = cs.length
        · rw [if_pos hall, hrt]
          simp [hall]
        · rw [if_neg hall]
      rw [show (if 15 ≤ ((cs ++ rest).takeWhile Char.isDigit).length then
            some ((cs ++ rest).takeWhile Char.isDigit) else findAltId (cs ++ rest))
          = findAltId (cs ++ rest) from if_neg (by rw [hfull]; exact hlen)]
      exact ih ha
    · rw [if_neg hc] at ha ⊢
      exact ih ha

theorem findAltId_at (c : Char) (run b : List Char)
    (hc : (c = '/' || c = '=') = true)
    (hrun : ∀ x ∈ run, Char.isDigit x = true) (hlen : 15 ≤ run.length)
    (hb : ∀ x, b.head? = some x → Char.isDigit x = false) :
    findAltId (c :: (run ++ b)) = some run := by
  rw [findAltId, if_pos hc]
  rw [takeWhile_all_head Char.isDigit run b hrun hb]
  rw [if_pos hlen]

theorem extract_video_id_no_redirect (lg : Bool) (env : Env) (url : String)
    (t : List NetEv)
    (h1 : containsSub "vm.tiktok.com" url = false)
    (h2 : containsSub "vt.tiktok.com" url = false) :
    extract_video_id lg env url t = extract_core lg url t := by
  rw [extract_video_id, h1, h2]
  rfl

theorem extract_core_std (lg : Bool) (url : String) (t : List NetEv)
    (h : List Char) (ct : String) (d : List Char)
    (hum : findHandle url.toList = some h)
    (hcm : findContentType url.toList = some (ct, d)) :
    extract_core lg url t = (Except.ok ("@" ++ String.mk h, String.mk d, ct), t) := by
  rw [extract_core, hum, hcm]
  rfl

/-- The alternative-pattern branch with a working logger: the digit run is
returned with content type `video` and the handle or the `@user`
placeholder. -/
theorem extract_core_alt_true (url : String) (t : List NetEv) (run : List Char)
    (hprior : ((findHandle url.toList).isNone || (findContentType url.toList).isNone) = true)
    (halt : findAltId url.toList = some run) :
    extract_core true url t =
      (Except.ok ((match findHandle url.toList with
        | some r => "@" ++ String.mk r
        | none => "@user"), String.mk run, "video"), t) := by
  rw [extract_core, if_pos hprior, halt]
  cases hum : findHandle url.toList <;> rfl

/-- As written (`logger` undefined), any URL that misses the standard
pattern makes the extractor raise `NameError` at the `logger.warning`
opening the alternative branch. -/
theorem extract_core_fail_false (url : String) (t : List NetEv)
    (hprior : ((findHandle url.toList).isNone || (findContentType url.toList).isNone) = true) :
    extract_core false url t = (Except.error (PyErr.nameError "logger"), t) := by
  rw [extract_core, if_pos hprior]
  rfl

/-- With a working logger: no handle and no fallback digit run means the
400 `Could not extract username from URL`. -/
theorem extract_core_nohandle_true (url : String) (t : List NetEv)
    (hum : findHandle url.toList = none)
    (halt : findAltId url.toList = none) :
    extract_core true url t =
      (Except.error (PyErr.httpException 400 "Could not extract username from URL"), t) := by
  rw [extract_core, hum, halt]
  rfl

theorem tryMethods_ok_first (lg : Bool) (le : Option PyErr) (m : AdM Resp)
    (rest : List (AdM Resp)) (t t2 : List NetEv) (r : Resp)
    (hm : m t = (Except.ok r, t2)) :
    tryMethods lg le (m :: rest) t = (Except.ok r, t2) := by
  rw [tryMethods, AdM.run_tryCatch, hm]

theorem tryMethods_step_true (le : Option PyErr) (m : AdM Resp)
    (rest : List (AdM Resp)) (t t2 : List NetEv) (e : PyErr)
    (hm : m t = (Except.error e, t2)) :
    tryMethods true le (m :: rest) t = tryMethods true (some e) rest t2 := by
  rw [tryMethods, AdM.run_tryCatch, hm]
  rfl

theorem tryMethods_exhausted_true (st : Nat) (d : String) (t : List NetEv) :
    tryMethods true (some (PyErr.httpException st d)) [] t =
      (Except.error (PyErr.httpException st d), t) := rfl

theorem extract_core_trace (lg : Bool) (url : String) (t : List NetEv) :
    (extract_core lg url t).2 = t := by
  rw [extract_core]
  by_cases hpr : ((findHandle url.toList).isNone || (findContentType url.toList).isNone) = true
  · rw [if_pos hpr]
    cases lg with
    | false => rfl
    | true =>
      cases halt : findAltId url.toList with
      | some run =>
        cases hum : findHandle url.toList with
        | none => rfl
        | some r => rfl
      | none =>
        cases hum : findHandle url.toList with
        | none => rfl
        | some r =>
          cases hcm : findContentType url.toList with
          | none => rfl
          | some p =>
            obtain ⟨ct, d⟩ := p
            rfl
  · rw [if_neg hpr]
    cases lg <;>
      (cases hum : findHandle url.toList with
      | none => rfl
      | some r =>
        cases hcm : findContentType url.toList with
        | none => rfl
        | some p =>
          obtain ⟨ct, d⟩ := p
          rfl)

theorem extract_video_id_trace (lg : Bool) (env : Env) (url : String) (t : List NetEv) :
    ((extract_video_id lg env url t).2).filter NetEv.isBackend = t.filter NetEv.isBackend := by
  rw [extract_video_id]
  by_cases hred : (containsSub "vm.tiktok.com" url || containsSub "vt.tiktok.com" url) = true
  · rw [if_pos hred]
    cases hr : env.redirect url with
    | ok u =>
      change ((extract_core lg u (t ++ [NetEv.redirectGet url])).2).filter NetEv.isBackend
        = t.filter NetEv.isBackend
      rw [extract_core_trace]
      simp [NetEv.isBackend]
    | error msg =>
      cases lg <;>
        · change (t ++ [NetEv.redirectGet url]).filter NetEv.isBackend = t.filter NetEv.isBackend
          simp [NetEv.isBackend]
  · rw [if_neg hred]
    change ((extract_core lg url t).2).filter NetEv.isBackend = t.filter NetEv.isBackend
    rw [extract_core_trace]

theorem v1_photo (lg : Bool) (env : Env) (url : String) (t t2 : List NetEv) (u vid : String)
    (hx : extract_video_id lg env url t = (Except.ok (u, vid, "photo"), t2)) :
    download_v1 lg env url t =
      (Except.error (if lg then PyErr.httpException 400 "Only video downloads are supported"
        else PyErr.nameError "logger"), t2) := by
  cases lg <;>
    · rw [download_v1, AdM.run_tryCatch, v1_try, AdM.run_bind, hx]
      rfl

theorem v2_photo (lg : Bool) (env : Env) (url : String) (t t2 : List NetEv) (u vid : String)
    (hx : extract_video_id lg env url t = (Except.ok (u, vid, "photo"), t2)) :
    download_v2 lg env url t =
      (Except.error (if lg then PyErr.httpException 400 "Only video downloads are supported"
        else PyErr.nameError "logger"), t2) := by
  cases lg <;>
    · rw [download_v2, AdM.run_tryCatch, v2_try, AdM.run_bind, hx]
      rfl

theorem v3_photo (lg : Bool) (env : Env) (url : String) (t t2 : List NetEv) (u vid : String)
    (hx : extract_video_id lg env url t = (Except.ok (u, vid, "photo"), t2)) :
    download_v3 lg env url t =
      (Except.error (if lg then PyErr.httpException 400 "Only video downloads are supported"
        else PyErr.nameError "logger"), t2) := by
  cases lg <;>
    · rw [download_v3, AdM.run_tryCatch, v3_try, AdM.run_bind, hx]
      rfl

/-- C1: the name `logger` is never defined or imported in app.py, and every
execution path of `download_v1`, `download_v2`, `download_v3` and of the
per-method `except` handler of the orchestrator performs a logging call
before completing.  Hence, with the module exactly as written (`lg = false`),
every adapter invocation and the whole `/download` endpoint fail with
`NameError`, and a successful `StreamingResponse` is never returned, for
every URL and every behaviour of the network. -/
theorem C1_undefined_logger (env : Env) (url : String) (t : List NetEv) :
    (download_v1 false env url t).1 = Except.error (PyErr.nameError "logger") ∧
    (download_v2 false env url t).1 = Except.error (PyErr.nameError "logger") ∧
    (download_v3 false env url t).1 = Except.error (PyErr.nameError "logger") ∧
    (download_video false env url t).1 = Except.error (PyErr.nameError "logger") ∧
    ∀ r t2, download_video false env url t ≠ (Except.ok r, t2) := by
  obtain ⟨t1, h1⟩ := download_v1_false env url t
  obtain ⟨t2, h2⟩ := download_v2_false env url t
  obtain ⟨t3, h3⟩ := download_v3_false env url t
  obtain ⟨t4, h4⟩ := download_video_false env url t
  refine ⟨by rw [h1], by rw [h2], by rw [h3], by rw [h4], ?_⟩
  intro r t5 hok
  rw [hok] at h4
  simp at h4

/-- C2 counterexample: in `envAllFail` every adapter fails, yet the
orchestrator does not return a value carrying 3 `ProviderFailure` records
and the caller is not shown a generic error: it re-raises the LAST
HTTPException exactly as produced by the last-priority adapter — here the
tmate.cc-specific 503, whose detail names the provider.  With `logger`
undefined (the code as written) it instead aborts with `NameError` inside
the handler of the FIRST failure, before trying the other two methods. -/
theorem C2_counterexample :
    download_video true envAllFail urlStandard [] =
      (Except.error (PyErr.httpException 503 "tmate.cc initial request failed with status 503"),
       [NetEv.backendGet "https://musicaldown.com/en",
        NetEv.backendGet "https://tiktokio.com/",
        NetEv.backendGet "https://tmate.cc/"]) ∧
    containsSub "tmate.cc" "tmate.cc initial request failed with status 503" = true ∧
    download_video false envAllFail urlStandard [] =
      (Except.error (PyErr.nameError "logger"), []) := ⟨rfl, rfl, rfl⟩

/-- C2 amended: the orchestrator keeps only `last_error`.  When all three
methods fail (logger working), it surfaces exactly the last method
(`download_v1`, since the order is v2, v3, v1) HTTPException as is; no
ordered list of per-provider failures is accumulated anywhere.  As written,
the per-method handler raises `NameError` on the first failure and the
later methods never run. -/
theorem C2_last_error_surfaced (env : Env) (url : String) (t t1 t2 t3 : List NetEv)
    (e2 e3 : PyErr) (st : Nat) (d : String)
    (h2 : download_v2 true env url t = (Except.error e2, t1))
    (h3 : download_v3 true env url t1 = (Except.error e3, t2))
    (h1 : download_v1 true env url t2 = (Except.error (PyErr.httpException st d), t3)) :
    download_video true env url t = (Except.error (PyErr.httpException st d), t3) ∧
    (∀ e t4, download_v2 false env url t = (Except.error e, t4) →
      download_video false env url t = (Except.error (PyErr.nameError "logger"), t4)) := by
  constructor
  · rw [download_video, tryMethods_step_true _ _ _ _ _ _ h2,
      tryMethods_step_true _ _ _ _ _ _ h3, tryMethods_step_true _ _ _ _ _ _ h1,
      tryMethods_exhausted_true]
  · intro e t4 h
    rw [download_video, tryMethods_false_first _ _ _ _ _ _ h]

theorem C2_last_error_surfaced_witness :
    download_video true envAllFail urlStandard [] =
      (Except.error (PyErr.httpException 503 "tmate.cc initial request failed with status 503"),
       [NetEv.backendGet "https://musicaldown.com/en",
        NetEv.backendGet "https://tiktokio.com/",
        NetEv.backendGet "https://tmate.cc/"]) :=
  (C2_last_error_surfaced envAllFail urlStandard _ _ _ _ _ _ 503 _ rfl rfl rfl).1

/-- C3 counterexample: `urlQueryId`-like URLs break the claim.  Here
`urlDigitsNotDelimited` contains an 18-digit run (`hasDigitRun15`, the
claim wording) and matches neither primary pattern, yet extraction fails —
with a 400 under a working logger and with `NameError` as written — because
the fallback regex `[/=](\d{15,})` only accepts a run directly preceded by
`/` or `=`, and this run is preceded by `q`. -/
theorem C3_counterexample :
    hasDigitRun15 urlDigitsNotDelimited.toList = true ∧
    findHandle urlDigitsNotDelimited.toList = none ∧
    findContentType urlDigitsNotDelimited.toList = none ∧
    (extract_video_id true envTriv urlDigitsNotDelimited []).1 =
      Except.error (PyErr.httpException 400 "Could not extract username from URL") ∧
    (extract_video_id false envTriv urlDigitsNotDelimited []).1 =
      Except.error (PyErr.nameError "logger") := ⟨by decide, rfl, rfl, rfl, rfl⟩

/-- C3 amended: for every URL whose digit run of length at least 15 is
directly preceded by `/` or `=` (and with no earlier fallback match), when
the primary pattern pair fails, extraction with a working logger does not
fail: it returns that run as contentId with contentType `video`, keeping a
found handle or substituting the `@user` placeholder.  As written, the
alternative branch first raises `NameError` at its `logger.warning`. -/
theorem C3_fallback_needs_delimiter (env : Env) (url : String) (t : List NetEv)
    (a run b : List Char) (c : Char)
    (hsplit : url.toList = a ++ c :: (run ++ b))
    (hc : (c = '/' || c = '=') = true)
    (hrun : ∀ x ∈ run, Char.isDigit x = true)
    (hlen : 15 ≤ run.length)
    (hb : ∀ x, b.head? = some x → Char.isDigit x = false)
    (ha : findAltId a = none)
    (hprior : ((findHandle url.toList).isNone || (findContentType url.toList).isNone) = true)
    (hred1 : containsSub "vm.tiktok.com" url = false)
    (hred2 : containsSub "vt.tiktok.com" url = false) :
    extract_video_id true env url t =
      (Except.ok ((match findHandle url.toList with
        | some r => "@" ++ String.mk r
        | none => "@user"), String.mk run, "video"), t) ∧
    extract_video_id false env url t = (Except.error (PyErr.nameError "logger"), t) := by
  have hcd : Char.isDigit c = false := by
    have := hc
    simp only [Bool.or_eq_true, decide_eq_true_eq] at this
    rcases this with h | h <;> subst h <;> decide
  have halt : findAltId url.toList = some run := by
    rw [hsplit, findAltId_append a _ ha ?_, findAltId_at c run b hc hrun hlen hb]
    intro x hx
    injection hx with hx
    rw [← hx]
    exact hcd
  constructor
  · rw [extract_video_id_no_redirect true env url t hred1 hred2,
      extract_core_alt_true url t run hprior halt]
  · rw [extract_video_id_no_redirect false env url t hred1 hred2,
      extract_core_fail_false url t hprior]

theorem C3_fallback_needs_delimiter_witness :
    extract_video_id true envTriv urlQueryId [] =
      (Except.ok ("@user", "712345678901234567", "video"), []) ∧
    extract_video_id false envTriv urlQueryId [] =
      (Except.error (PyErr.nameError "logger"), []) := by
  have h := C3_fallback_needs_delimiter envTriv urlQueryId []
    "https://ex.com?id".toList "712345678901234567".toList [] '='
    (by decide) (by decide) (by decide) (by decide)
    (by intro x hx; exact Option.noConfusion hx) (by decide) (by decide)
    (by decide) (by decide)
  exact h

/-- C4 counterexample: on `urlVideoNoHandle` the primary content-id
pattern succeeds (`/video/` + 19 digits) and the handle pattern fails, yet
extraction does not fail with MalformedUrl: with a working logger the
fallback returns `(@user, id, video)`, and as written it raises
`NameError`. -/
theorem C4_counterexample :
    findContentType urlVideoNoHandle.toList = some ("video", "7123456789012345678".toList) ∧
    findHandle urlVideoNoHandle.toList = none ∧
    (extract_video_id true envTriv urlVideoNoHandle []).1 =
      Except.ok ("@user", "7123456789012345678", "video") ∧
    (extract_video_id false envTriv urlVideoNoHandle []).1 =
      Except.error (PyErr.nameError "logger") := ⟨rfl, rfl, rfl, rfl⟩

/-- C4 amended: when the primary content-id pattern succeeds but the
handle pattern fails, extraction fails with the 400 MalformedUrl
(`Could not extract username from URL`) only if the fallback digit-run
pattern also finds nothing — and only with a working logger; as written the
path raises `NameError`. -/
theorem C4_malformed_only_without_fallback (env : Env) (url : String) (t : List NetEv)
    (ct : String) (d : List Char)
    (_hcm : findContentType url.toList = some (ct, d))
    (hum : findHandle url.toList = none)
    (halt : findAltId url.toList = none)
    (hred1 : containsSub "vm.tiktok.com" url = false)
    (hred2 : containsSub "vt.tiktok.com" url = false) :
    extract_video_id true env url t =
      (Except.error (PyErr.httpException 400 "Could not extract username from URL"), t) ∧
    extract_video_id false env url t = (Except.error (PyErr.nameError "logger"), t) := by
  constructor
  · rw [extract_video_id_no_redirect true env url t hred1 hred2,
      extract_core_nohandle_true url t hum halt]
  · rw [extract_video_id_no_redirect false env url t hred1 hred2,
      extract_core_fail_false url t (by rw [hum]; rfl)]

theorem C4_malformed_only_without_fallback_witness :
    extract_video_id true envTriv urlShortId [] =
      (Except.error (PyErr.httpException 400 "Could not extract username from URL"), []) ∧
    extract_video_id false envTriv urlShortId [] =
      (Except.error (PyErr.nameError "logger"), []) :=
  C4_malformed_only_without_fallback envTriv urlShortId [] "video" "123".toList rfl rfl rfl rfl rfl

/-- C5: whenever extraction yields `contentType = photo`, each of the
three adapters stops before any backend network call: the trace gains no
backend event.  With a working logger the rejection is the 400
`Only video downloads are supported` (UnsupportedContentType); as written,
the `logger.warning` directly before that raise makes the adapter fail
with `NameError` instead (the code bug) — still with no network call. -/
theorem C5_photo_rejected_before_network (lg : Bool) (env : Env) (url : String) (t t2 : List NetEv) (u vid : String)
    (hx : extract_video_id lg env url t = (Except.ok (u, vid, "photo"), t2)) :
    download_v1 lg env url t =
      (Except.error (if lg then PyErr.httpException 400 "Only video downloads are supported"
        else PyErr.nameError "logger"), t2) ∧
    download_v2 lg env url t =
      (Except.error (if lg then PyErr.httpException 400 "Only video downloads are supported"
        else PyErr.nameError "logger"), t2) ∧
    download_v3 lg env url t =
      (Except.error (if lg then PyErr.httpException 400 "Only video downloads are supported"
        else PyErr.nameError "logger"), t2) ∧
    t2.filter NetEv.isBackend = t.filter NetEv.isBackend := by
  refine ⟨v1_photo lg env url t t2 u vid hx, v2_photo lg env url t t2 u vid hx,
    v3_photo lg env url t t2 u vid hx, ?_⟩
  have h := extract_video_id_trace lg env url t
  rw [hx] at h
  exact h

theorem C5_photo_rejected_before_network_witness :
    download_v1 true envTriv urlPhoto [] =
      (Except.error (if true then PyErr.httpException 400 "Only video downloads are supported"
        else PyErr.nameError "logger"), []) ∧
    download_v2 true envTriv urlPhoto [] =
      (Except.error (if true then PyErr.httpException 400 "Only video downloads are supported"
        else PyErr.nameError "logger"), []) ∧
    download_v3 true envTriv urlPhoto [] =
      (Except.error (if true then PyErr.httpException 400 "Only video downloads are supported"
        else PyErr.nameError "logger"), []) ∧
    List.filter NetEv.isBackend [] = List.filter NetEv.isBackend ([] : List NetEv) :=
  C5_photo_rejected_before_network true envTriv urlPhoto [] [] "@someuser" "7123456789012345678" rfl

/-- C6: the orchestrator runs the methods strictly sequentially in the
fixed order v2, v3, v1 and short-circuits at the first success: a `v2`
success is returned unchanged and the trace is exactly the `v2` trace, so
`v3` and `v1` are never invoked (no further network event exists).  With a
working logger each failure is recorded in `last_error` and the next
method runs.  As written (the code bug), the per-method handler raises
`NameError` on the first failure, so the orchestrator never proceeds to
the next adapter. -/
theorem C6_sequential_shortcircuit (env : Env) (url : String) (t : List NetEv) :
    (∀ (lg : Bool) (r : Resp) (t2 : List NetEv),
      download_v2 lg env url t = (Except.ok r, t2) →
      download_video lg env url t = (Except.ok r, t2)) ∧
    (∀ (e2 : PyErr) (t1 : List NetEv) (r : Resp) (t2 : List NetEv),
      download_v2 true env url t = (Except.error e2, t1) →
      download_v3 true env url t1 = (Except.ok r, t2) →
      download_video true env url t = (Except.ok r, t2)) ∧
    (∀ (e2 e3 : PyErr) (t1 t2 : List NetEv) (r : Resp) (t3 : List NetEv),
      download_v2 true env url t = (Except.error e2, t1) →
      download_v3 true env url t1 = (Except.error e3, t2) →
      download_v1 true env url t2 = (Except.ok r, t3) →
      download_video true env url t = (Except.ok r, t3)) ∧
    (∀ (e2 : PyErr) (t1 : List NetEv),
      download_v2 false env url t = (Except.error e2, t1) →
      download_video false env url t = (Except.error (PyErr.nameError "logger"), t1)) := by
  refine ⟨?_, ?_, ?_, ?_⟩
  · intro lg r t2 h
    rw [download_video, tryMethods_ok_first lg none _ _ _ _ _ h]
  · intro e2 t1 r t2 h2 h3
    rw [download_video, tryMethods_step_true _ _ _ _ _ _ h2,
      tryMethods_ok_first true _ _ _ _ _ _ h3]
  · intro e2 e3 t1 t2 r t3 h2 h3 h1
    rw [download_video, tryMethods_step_true _ _ _ _ _ _ h2,
      tryMethods_step_true _ _ _ _ _ _ h3, tryMethods_ok_first true _ _ _ _ _ _ h1]
  · intro e2 t1 h
    rw [download_video, tryMethods_false_first _ _ _ _ _ _ h]

theorem C6_sequential_shortcircuit_witness :
    download_video true envHappy urlStandard [] =
      (Except.ok ⟨[8, 8], "video/mp4",
        [("Content-Disposition", "attachment; filename=\"tiktok_7123456789012345678.mp4\"")]⟩,
       [NetEv.backendGet "https://musicaldown.com/en",
        NetEv.backendPost "https://musicaldown.com/download",
        NetEv.backendGet "https://dl.example/v2.mp4"]) ∧
    download_video true envV2Down urlStandard [] =
      (Except.ok ⟨[7, 7], "video/mp4",
        [("Content-Disposition", "attachment; filename=\"tiktok_7123456789012345678.mp4\"")]⟩,
       [NetEv.backendGet "https://musicaldown.com/en",
        NetEv.backendGet "https://tiktokio.com/",
        NetEv.backendPost "https://tiktokio.com/api/v1/tk-htmx",
        NetEv.backendGet "https://dl.example/v3.mp4"]) ∧
    download_video true envV23Down urlStandard [] =
      (Except.ok ⟨[9, 9, 9], "video/mp4",
        [("Content-Disposition", "attachment; filename=\"tiktok_7123456789012345678.mp4\""),
         ("Content-Length", "2"), ("Accept-Ranges", "bytes")]⟩,
       [NetEv.backendGet "https://musicaldown.com/en",
        NetEv.backendGet "https://tiktokio.com/",
        NetEv.backendGet "https://tmate.cc/",
        NetEv.backendPost "https://tmate.cc/action",
        NetEv.backendGet "https://dl.example/v1.mp4"]) ∧
    download_video false envHappy urlStandard [] =
      (Except.error (PyErr.nameError "logger"), []) :=
  ⟨(C6_sequential_shortcircuit envHappy urlStandard []).1 true _ _ rfl,
   (C6_sequential_shortcircuit envV2Down urlStandard []).2.1 _ _ _ _ rfl rfl,
   (C6_sequential_shortcircuit envV23Down urlStandard []).2.2.1 _ _ _ _ _ _ rfl rfl rfl,
   (C6_sequential_shortcircuit envHappy urlStandard []).2.2.2 (PyErr.nameError "logger") [] rfl⟩

/-- C7: for every URL of the shape `<pre>@<handle>/video/<15+ digits><suf>`
(first `@` introducing the handle, no content segment in the prefix, no
shortened-URL host), extraction returns exactly that handle with its
leading `@`, exactly that digit string, and contentType `video` — under
both logger models, since this path performs no logging call. -/
theorem C7_standard_pattern_exact (lg : Bool) (env : Env) (t : List NetEv) (url : String)
    (pre h d suf : List Char)
    (hurl : url.toList = pre ++ '@' :: (h ++ (vidTag ++ (d ++ suf))))
    (hpre1 : '@' ∉ pre)
    (hpre2 : findContentType pre = none)
    (hh1 : h ≠ []) (hh2 : ∀ c ∈ h, isHandleChar c = true)
    (hd1 : 15 ≤ d.length) (hd2 : ∀ c ∈ d, Char.isDigit c = true)
    (hsuf : ∀ c, suf.head? = some c → Char.isDigit c = false)
    (hred1 : containsSub "vm.tiktok.com" url = false)
    (hred2 : containsSub "vt.tiktok.com" url = false) :
    extract_video_id lg env url t =
      (Except.ok ("@" ++ String.mk h, String.mk d, "video"), t) := by
  have hum : findHandle url.toList = some h := by
    rw [hurl, findHandle_append pre _ hpre1]
    refine findHandle_at h _ hh1 hh2 ?_
    intro c hc
    injection hc with hc
    rw [← hc]
    decide
  have hcm : findContentType url.toList = some ("video", d) := by
    rw [hurl]
    rw [findContentType_append_cons pre '@' _ hpre2 (by decide) (by decide) (by decide)]
    have hassoc : ('@' :: (h ++ (vidTag ++ (d ++ suf))))
        = ('@' :: h) ++ (vidTag ++ (d ++ suf)) := by simp
    rw [hassoc]
    rw [findContentType_skip ('@' :: h) _ ?_]
    · exact findContentType_at_vid d suf hd2
        (by intro hd0; rw [hd0] at hd1; simp at hd1) hsuf
    · intro c hc
      rcases List.mem_cons.mp hc with rfl | hmem
      · decide
      · intro heq
        have := hh2 c hmem
        rw [heq] at this
        exact absurd this (by decide)
  rw [extract_video_id_no_redirect lg env url t hred1 hred2,
    extract_core_std lg url t h "video" d hum hcm]

theorem C7_standard_pattern_exact_witness :
    extract_video_id true envTriv urlStandard [] =
      (Except.ok ("@someuser", "7123456789012345678", "video"), []) := by
  have h := C7_standard_pattern_exact true envTriv [] urlStandard
    "https://www.tiktok.com/".toList "someuser".toList
    "7123456789012345678".toList []
    (by decide) (by decide) (by decide) (by decide) (by decide) (by decide) (by decide)
    (by intro c hc; exact Option.noConfusion hc) (by decide) (by decide)
  exact h

/-- C8: every successful result of any of the three adapters declares
media type `video/mp4` and a Content-Disposition whose filename is exactly
`tiktok_` ++ contentId ++ `.mp4`, for the contentId that
`extract_video_id` produced for the same URL. -/
theorem C8_filename_from_content_id (lg : Bool) (env : Env) (url : String) (t : List NetEv)
    (r : Resp) (t3 : List NetEv) :
    (download_v1 lg env url t = (Except.ok r, t3) →
      ∃ u vid t2, extract_video_id lg env url t = (Except.ok (u, vid, "video"), t2) ∧
        r.media_type = "video/mp4" ∧
        r.headersList.head? = some ("Content-Disposition",
          "attachment; filename=\"tiktok_" ++ vid ++ ".mp4\"")) ∧
    (download_v2 lg env url t = (Except.ok r, t3) →
      ∃ u vid t2, extract_video_id lg env url t = (Except.ok (u, vid, "video"), t2) ∧
        r.media_type = "video/mp4" ∧
        r.headersList.head? = some ("Content-Disposition",
          "attachment; filename=\"tiktok_" ++ vid ++ ".mp4\"")) ∧
    (download_v3 lg env url t = (Except.ok r, t3) →
      ∃ u vid t2, extract_video_id lg env url t = (Except.ok (u, vid, "video"), t2) ∧
        r.media_type = "video/mp4" ∧
        r.headersList.head? = some ("Content-Disposition",
          "attachment; filename=\"tiktok_" ++ vid ++ ".mp4\"")) :=
  ⟨v1_ok_shape lg env url t r t3, v2_ok_shape lg env url t r t3, v3_ok_shape lg env url t r t3⟩

theorem C8_filename_from_content_id_witness :
    ∃ u vid t2, extract_video_id true envHappy urlStandard [] =
        (Except.ok (u, vid, "video"), t2) ∧
      (⟨[9, 9, 9], "video/mp4",
        [("Content-Disposition", "attachment; filename=\"tiktok_7123456789012345678.mp4\""),
         ("Content-Length", "2"), ("Accept-Ranges", "bytes")]⟩ : Resp).media_type = "video/mp4" ∧
      (⟨[9, 9, 9], "video/mp4",
        [("Content-Disposition", "attachment; filename=\"tiktok_7123456789012345678.mp4\""),
         ("Content-Length", "2"), ("Accept-Ranges", "bytes")]⟩ : Resp).headersList.head?
        = some ("Content-Disposition", "attachment; filename=\"tiktok_" ++ vid ++ ".mp4\"") :=
  (C8_filename_from_content_id true envHappy urlStandard [] _ _).1 rfl

/-- C9 counterexample: `download_v1` does not try an ordered list of two
or more selector candidates.  In this environment its single selector
yields nothing while the generic `.mp4` selector (a candidate in both
other adapters) yields a non-empty match on the same document, yet v1
fails at the link-extraction stage. -/
theorem C9_counterexample :
    (v1LinksHtml [] ["https://cdn.example/alt.mp4"]).css "a[href*=\".mp4\"]::attr(href)"
      = ["https://cdn.example/alt.mp4"] ∧
    download_v1 true (envV1Links [] ["https://cdn.example/alt.mp4"]) urlStandard [] =
      (Except.error (PyErr.httpException 500 "Could not find download link"),
       [NetEv.backendGet "https://tmate.cc/",
        NetEv.backendPost "https://tmate.cc/action"]) := ⟨rfl, rfl⟩

/-- C9 amended: `download_v2` tries three xpath candidates in source
order accepting the first truthy match and fails at link-extraction only
when all yield nothing; `download_v3` tries two css candidates the same
way; but `download_v1` consults exactly one selector and fails whenever it
alone is empty, whatever every other selector would yield. -/
theorem C9_selector_candidates :
    (∀ other : List String,
      download_v1 true (envV1Links [] other) urlStandard [] =
        (Except.error (PyErr.httpException 500 "Could not find download link"),
         [NetEv.backendGet "https://tmate.cc/",
          NetEv.backendPost "https://tmate.cc/action"])) ∧
    (∀ l : String, l ≠ "" →
      download_v2 true (envV2Links [] [] [l]) urlStandard [] =
        (Except.ok ⟨[8, 8], "video/mp4",
          [("Content-Disposition", "attachment; filename=\"tiktok_7123456789012345678.mp4\"")]⟩,
         [NetEv.backendGet "https://musicaldown.com/en",
          NetEv.backendPost "https://musicaldown.com/download",
          NetEv.backendGet l])) ∧
    (∀ l : String, l ≠ "" →
      download_v2 true (envV2Links [] [l] []) urlStandard [] =
        (Except.ok ⟨[8, 8], "video/mp4",
          [("Content-Disposition", "attachment; filename=\"tiktok_7123456789012345678.mp4\"")]⟩,
         [NetEv.backendGet "https://musicaldown.com/en",
          NetEv.backendPost "https://musicaldown.com/download",
          NetEv.backendGet l])) ∧
    (∀ (l l2 : String), l ≠ "" →
      download_v2 true (envV2Links [l] [l2] []) urlStandard [] =
        (Except.ok ⟨[8, 8], "video/mp4",
          [("Content-Disposition", "attachment; filename=\"tiktok_7123456789012345678.mp4\"")]⟩,
         [NetEv.backendGet "https://musicaldown.com/en",
          NetEv.backendPost "https://musicaldown.com/download",
          NetEv.backendGet l])) ∧
    (download_v2 true (envV2Links [] [] []) urlStandard [] =
      (Except.error (PyErr.httpException 500 "Could not find download link"),
       [NetEv.backendGet "https://musicaldown.com/en",
        NetEv.backendPost "https://musicaldown.com/download"])) ∧
    (∀ l : List String,
      download_v3 true (envV3Links [] l) urlStandard [] =
        (match l with
         | [] => (Except.error (PyErr.httpException 500 "Could not find download link"),
            [NetEv.backendGet "https://tiktokio.com/",
             NetEv.backendPost "https://tiktokio.com/api/v1/tk-htmx"])
         | l1 :: _ => (Except.ok ⟨[7, 7], "video/mp4",
            [("Content-Disposition", "attachment; filename=\"tiktok_7123456789012345678.mp4\"")]⟩,
            [NetEv.backendGet "https://tiktokio.com/",
             NetEv.backendPost "https://tiktokio.com/api/v1/tk-htmx",
             NetEv.backendGet l1]))) ∧
    (∀ (l1 l2 : List String) (x : String),
      download_v3 true (envV3Links (x :: l1) l2) urlStandard [] =
        (Except.ok ⟨[7, 7], "video/mp4",
          [("Content-Disposition", "attachment; filename=\"tiktok_7123456789012345678.mp4\"")]⟩,
         [NetEv.backendGet "https://tiktokio.com/",
          NetEv.backendPost "https://tiktokio.com/api/v1/tk-htmx",
          NetEv.backendGet x])) := by
  have hx1 : ∀ other, extract_video_id true (envV1Links [] other) urlStandard [] =
      (Except.ok ("@someuser", "7123456789012345678", "video"), []) := fun _ => rfl
  refine ⟨?_, ?_, ?_, ?_, rfl, ?_, ?_⟩
  · intro other
    rw [download_v1, AdM.run_tryCatch, v1_try, AdM.run_bind, hx1 other]
    rfl
  · intro l hl
    have hx : extract_video_id true (envV2Links [] [] [l]) urlStandard [] =
        (Except.ok ("@someuser", "7123456789012345678", "video"), []) := rfl
    rw [download_v2, AdM.run_tryCatch, v2_try, AdM.run_bind, hx]
    simp only [AdM.run_bind, AdM.pure, AdM.throw, logA, netEv, strTruthy,
      envV2Links, v2LinksHtml, envHappy, v2LandingHappy, mediaHappy,
      List.head?, ne_eq, String.reduceEq, Nat.reduceEqDiff, not_false_eq_true,
      not_true_eq_false, if_true, if_false, ite_true, ite_false, List.nil_append,
      List.cons_append, List.append_nil]
    rw [if_neg hl]
    rfl
  · intro l hl
    have hx : extract_video_id true (envV2Links [] [l] []) urlStandard [] =
        (Except.ok ("@someuser", "7123456789012345678", "video"), []) := rfl
    rw [download_v2, AdM.run_tryCatch, v2_try, AdM.run_bind, hx]
    simp only [AdM.run_bind, AdM.pure, AdM.throw, logA, netEv, strTruthy,
      envV2Links, v2LinksHtml, envHappy, v2LandingHappy, mediaHappy,
      List.head?, ne_eq, String.reduceEq, Nat.reduceEqDiff, not_false_eq_true,
      not_true_eq_false, if_true, if_false, ite_true, ite_false, List.nil_append,
      List.cons_append, List.append_nil]
    rw [if_neg hl]
    rfl
  · intro l l2 hl
    have hx : extract_video_id true (envV2Links [l] [l2] []) urlStandard [] =
        (Except.ok ("@someuser", "7123456789012345678", "video"), []) := rfl
    rw [download_v2, AdM.run_tryCatch, v2_try, AdM.run_bind, hx]
    simp only [AdM.run_bind, AdM.pure, AdM.throw, logA, netEv, strTruthy,
      envV2Links, v2LinksHtml, envHappy, v2LandingHappy, mediaHappy,
      List.head?, ne_eq, String.reduceEq, Nat.reduceEqDiff, not_false_eq_true,
      not_true_eq_false, if_true, if_false, ite_true, ite_false, List.nil_append,
      List.cons_append, List.append_nil]
    rw [if_neg hl]
    rfl
  · intro l
    cases l with
    | nil => rfl
    | cons l1 rest => rfl
  · intro l1 l2 x
    rfl

theorem C9_selector_candidates_witness :
    download_v2 true (envV2Links [] [] ["https://cdn.example/w.mp4"]) urlStandard [] =
      (Except.ok ⟨[8, 8], "video/mp4",
        [("Content-Disposition", "attachment; filename=\"tiktok_7123456789012345678.mp4\"")]⟩,
       [NetEv.backendGet "https://musicaldown.com/en",
        NetEv.backendPost "https://musicaldown.com/download",
        NetEv.backendGet "https://cdn.example/w.mp4"]) :=
  C9_selector_candidates.2.1 "https://cdn.example/w.mp4" (by decide)

/-- C10: a photo URL with no handle whose id is a 15+-digit run preceded
by `/` or `=` takes the alternative-pattern branch: with a working logger
extraction returns `(@user, id, video)`, so the photo passes the
video-only check of every adapter and the backend handshake proceeds (the
v1 trace shows the landing GET, form POST and media GET).  As written the
branch first raises `NameError` at its `logger.warning` (the same logger
bug as C1). -/
theorem C10_photo_bypass_via_fallback (env : Env) (url : String) (t : List NetEv) (d run : List Char)
    (_hcm : findContentType url.toList = some ("photo", d))
    (hum : findHandle url.toList = none)
    (halt : findAltId url.toList = some run)
    (hred1 : containsSub "vm.tiktok.com" url = false)
    (hred2 : containsSub "vt.tiktok.com" url = false) :
    extract_video_id true env url t = (Except.ok ("@user", String.mk run, "video"), t) ∧
    extract_video_id false env url t = (Except.error (PyErr.nameError "logger"), t) ∧
    download_v1 true envHappy url [] =
      (Except.ok ⟨[9, 9, 9], "video/mp4",
        [("Content-Disposition", "attachment; filename=\"tiktok_" ++ String.mk run ++ ".mp4\""),
         ("Content-Length", "2"), ("Accept-Ranges", "bytes")]⟩,
       [NetEv.backendGet "https://tmate.cc/",
        NetEv.backendPost "https://tmate.cc/action",
        NetEv.backendGet "https://dl.example/v1.mp4"]) := by
  have hprior : ((findHandle url.toList).isNone || (findContentType url.toList).isNone) = true := by
    rw [hum]
    rfl
  have h1 : ∀ env2, extract_video_id true env2 url t =
      (Except.ok ("@user", String.mk run, "video"), t) := by
    intro env2
    rw [extract_video_id_no_redirect true env2 url t hred1 hred2,
      extract_core_alt_true url t run hprior halt, hum]
  refine ⟨h1 env, ?_, ?_⟩
  · rw [extract_video_id_no_redirect false env url t hred1 hred2,
      extract_core_fail_false url t hprior]
  · have hx : extract_video_id true envHappy url [] =
        (Except.ok ("@user", String.mk run, "video"), []) := by
      rw [extract_video_id_no_redirect true envHappy url [] hred1 hred2,
        extract_core_alt_true url [] run hprior halt, hum]
    rw [download_v1, AdM.run_tryCatch, v1_try, AdM.run_bind, hx]
    simp only [AdM.run_bind, AdM.pure, AdM.throw, logA, netEv, strTruthy,
      envHappy, v1LandingHappy, v1ActionHappy, v1DataHappy, mediaHappy,
      List.head?, ne_eq, String.reduceEq, Nat.reduceEqDiff, not_false_eq_true,
      not_true_eq_false, if_true, if_false, ite_true, ite_false, List.nil_append,
      List.cons_append, List.append_nil]
    rfl

theorem C10_photo_bypass_via_fallback_witness :
    extract_video_id true envTriv urlPhotoNoHandle [] =
      (Except.ok ("@user", "7123456789012345678", "video"), []) ∧
    extract_video_id false envTriv urlPhotoNoHandle [] =
      (Except.error (PyErr.nameError "logger"), []) ∧
    download_v1 true envHappy urlPhotoNoHandle [] =
      (Except.ok ⟨[9, 9, 9], "video/mp4",
        [("Content-Disposition", "attachment; filename=\"tiktok_7123456789012345678.mp4\""),
         ("Content-Length", "2"), ("Accept-Ranges", "bytes")]⟩,
       [NetEv.backendGet "https://tmate.cc/",
        NetEv.backendPost "https://tmate.cc/action",
        NetEv.backendGet "https://dl.example/v1.mp4"]) :=
  C10_photo_bypass_via_fallback envTriv urlPhotoNoHandle [] "7123456789012345678".toList
    "7123456789012345678".toList rfl rfl rfl rfl rfl
